import Mathlib

/-!
Shallow embedding of the note-preview synthesizer in `src/synth.hh`:
the data model (`SynthNote`), the schedule calculator (`Synth::calcNext`),
the tone renderer (`Synth::createBuffer` / `Synth::writeWavHeader`), and
the worker loop of `Synth::run` as a step function over explicit states
and wake/timeout events.

Time values (C++ `double`s) are modelled as exact rationals.  The
per-sample floating-point synthesis is modelled exactly, over an
arbitrary linear ordered field, by `fvalue` / `synthSamples` (read at
`K = ℝ` with `sn = Real.sin` for the idealised semantics), and is
abstracted as a byte-valued parameter `sb` inside `createBuffer`, where
only the structure of the produced buffer matters.
-/

namespace Composer

/-- Mirror of `SynthNote`: pitch `note`, onset `begin` and `length`,
with times in seconds. -/
structure SynthNote where
  note : ℤ
  begin : ℚ
  length : ℚ
deriving DecidableEq

/-- Mirror of the scan loop in `Synth::calcNext`
(`while (it != m_notes.end() && it->begin < m_pos) ++it;`): skip the notes
with `begin < pos` and return the first remaining note, if any. -/
def findNextNote (pos : ℚ) : List SynthNote → Option SynthNote
  | [] => none
  | n :: ns => if n.begin < pos then findNextNote pos ns else some n

/-- `ULONG_MAX / 1000.0`, the sentinel delay used when no upcoming note
exists (64-bit `unsigned long`). -/
def ulongSentinel : ℚ := (2 ^ 64 - 1) / 1000

/-- Little-endian 2-byte encoding (low 16 bits) of a number, as produced
by the `short` stream writes in `writeWavHeader`. -/
def le2 (n : ℕ) : List ℕ := [n % 256, n / 256 % 256]

/-- Little-endian 4-byte encoding (low 32 bits) of a number, as produced
by the `int`/`unsigned` stream writes in `writeWavHeader`. -/
def le4 (n : ℕ) : List ℕ := [n % 256, n / 256 % 256, n / 2 ^ 16 % 256, n / 2 ^ 24 % 256]

/-- Decode 4 little-endian bytes; inverse of `le4` below `2 ^ 32`. -/
def decodeLE4 : List ℕ → ℕ
  | [a, b, c, d] => a + 2 ^ 8 * b + 2 ^ 16 * c + 2 ^ 24 * d
  | _ => 0

/-- Mirror of `Synth::writeWavHeader`.  C++ `unsigned` arithmetic is
modelled with explicit `% 2 ^ 32` (in particular `size - 8` as
`(size + 2 ^ 32 - 8) % 2 ^ 32`); the 2- and 4-byte stream writes keep the
low bytes, which `le2` / `le4` do. -/
def writeWavHeader (bits ch sr samples : ℕ) : List ℕ :=
  let bps := ch * bits / 8
  let datasize := bps * samples % 2 ^ 32
  let size := (datasize + 44) % 2 ^ 32
  [82, 73, 70, 70] ++ le4 ((size + 2 ^ 32 - 8) % 2 ^ 32) ++
    [87, 65, 86, 69, 102, 109, 116, 32] ++
    le4 16 ++ le2 1 ++ le2 ch ++ le4 sr ++ le4 (bps * sr) ++
    le2 bps ++ le2 bits ++ [100, 97, 116, 97] ++ le4 datasize

/-- Iteration count of the sample loop
`for (size_t i = 0; i < length * sampleRate; ++i)`, i.e. the number of
naturals `i` with `(i : ℚ) < len * 8000` (see `lt_sampleLoopCount_iff`). -/
def sampleLoopCount (len : ℚ) : ℕ := (⌈len * 8000⌉).toNat

/-- Mirror of `Synth::createBuffer` as a pure byte-sequence producer.
`sb note len i` abstracts the byte value of sample `i` (the
floating-point synthesis, modelled exactly by `synthSamples`); the
header's sample-count argument is the C++ `double → unsigned` truncation
of `length * sampleRate`. -/
def createBuffer (sb : ℤ → ℚ → ℕ → ℕ) (note : ℤ) (len : ℚ) : List ℕ :=
  writeWavHeader 8 1 8000 (⌊len * 8000⌋).toNat ++
    (List.range (sampleLoopCount len)).map (sb note len)

/-- State of the synthesizer: the shared fields (`pos`, `notes`, `quit`),
the worker-owned fields (`delay`, `noteBegin`, `curBuffer`, `soundData`),
whether the worker loop has exited (`stopped`, also `true` before the
lazy start), and the log of emitted buffers (`played`). -/
structure SynthState where
  pos : ℚ
  delay : ℚ
  noteBegin : ℚ
  curBuffer : ℕ
  soundData : ℕ → List ℕ
  notes : List SynthNote
  quit : Bool
  stopped : Bool
  played : List (List ℕ)

/-- Initial state from the `Synth` constructor: all numeric fields
value-initialised to zero, both buffers empty, worker not yet started. -/
def initState : SynthState :=
  { pos := 0, delay := 0, noteBegin := 0, curBuffer := 0,
    soundData := fun _ => [], notes := [], quit := false,
    stopped := true, played := [] }

/-- Mirror of `Synth::calcNext`.  `e` models `timer.elapsed() / 1000.0`,
the wall-clock seconds spent in the pass, subtracted from the delay
before the 1 ms floor (the no-note branch returns before both).  Returns
the new state and whether a render occurred. -/
def calcNext (sb : ℤ → ℚ → ℕ → ℕ) (e : ℚ) (s : SynthState) : SynthState × Bool :=
  match findNextNote s.pos s.notes with
  | none => ({ s with delay := ulongSentinel }, false)
  | some n =>
      let d := n.begin - s.pos - e
      let dc := if d ≤ 1 / 1000 then (1 / 1000 : ℚ) else d
      if n.begin = s.noteBegin then ({ s with delay := dc }, false)
      else
        ({ s with delay := dc, noteBegin := n.begin,
                  soundData := fun j =>
                    if j = s.curBuffer then createBuffer sb (n.note.tmod 12) n.length
                    else s.soundData j }, true)

/-- Events observed by the worker at wake granularity: a `tick` (update
of position/notes followed by a wake; `e` is the elapsed-time parameter
of the resulting schedule pass), a `stop`, or a natural expiry of the
timed wait (`timeout`). -/
inductive SynthEv where
  | tick (p : ℚ) (ns : List SynthNote) (e : ℚ)
  | stop
  | timeout (e : ℚ)

/-- Boolean recogniser for `tick` events. -/
def isTick : SynthEv → Bool
  | .tick _ _ _ => true
  | _ => false

/-- One transition of `Synth::run` per observed event.
A `tick` writes `pos`/`notes`; if the worker had exited (or was never
started) it is (re)started — `run()` performs the initial `calcNext` and
the `while (!m_quit)` test decides whether the worker stays alive —
otherwise the woken worker checks `m_quit` and either exits or re-runs
`calcNext`.  A `stop` sets `quit` and the woken worker exits.  A
`timeout` is the onset event: after the `m_quit` check the active buffer
is emitted, the buffer index flips, the position advances by `0.2`,
`calcNext` re-runs, and the delay is forced up to at least `1.0`. -/
def workerStep (sb : ℤ → ℚ → ℕ → ℕ) (s : SynthState) : SynthEv → SynthState
  | .tick p ns e =>
      if s.stopped then
        { (calcNext sb e { s with pos := p, notes := ns }).1 with stopped := s.quit }
      else if s.quit then { s with pos := p, notes := ns, stopped := true }
      else (calcNext sb e { s with pos := p, notes := ns }).1
  | .stop => { s with quit := true, stopped := true }
  | .timeout e =>
      if s.stopped then s
      else if s.quit then { s with stopped := true }
      else
        let s1 := { s with played := s.played ++ [s.soundData s.curBuffer],
                           curBuffer := (s.curBuffer + 1) % 2 }
        let s2 := (calcNext sb e { s1 with pos := s1.pos + 1 / 5 }).1
        { s2 with delay := max s2.delay 1 }

/-- Fold of `workerStep` over an event trace. -/
def workerSteps (sb : ℤ → ℚ → ℕ → ℕ) (evs : List SynthEv) (s : SynthState) : SynthState :=
  evs.foldl (workerStep sb) s

/-- The per-sample amplitude of `createBuffer`
(`fvalue = d*0.2*sin(phase) + 0.2*sin(2*phase) + (1-d)*0.2*sin(4*phase)`),
over an arbitrary field so that it can be read at `K = ℝ`, `sn = Real.sin`
(the exact-arithmetic idealisation of the C++ doubles). -/
def fvalue (K : Type) [Field K] (sn : K → K) (d phase : K) : K :=
  d * (2 / 10) * sn phase + 2 / 10 * sn (2 * phase) +
    (1 - d) * (2 / 10) * sn (4 * phase)

/-- The 8-bit encoding `quint8 value = (fvalue + 1) * 0.5 * 255`: the C++
float-to-unsigned-integer conversion truncates toward zero, which is the
floor for the nonnegative values produced here. -/
def quantize (K : Type) [LinearOrderedField K] [FloorRing K] (x : K) : ℤ :=
  ⌊(x + 1) * (1 / 2) * 255⌋

/-- The synthesis loop of `createBuffer`: emit the quantised sample at
the current phase, then advance the phase by `delta = 2π·freq/8000`. -/
def synthSamples (K : Type) [LinearOrderedField K] [FloorRing K] (sn : K → K)
    (d delta : K) : ℕ → K → List ℤ
  | 0, _ => []
  | k + 1, phase =>
      quantize K (fvalue K sn d phase) :: synthSamples K sn d delta k (phase + delta)

/-! ### Basic lemmas about the schedule scan -/

lemma findNextNote_le {pos : ℚ} {notes : List SynthNote} {n : SynthNote}
    (h : findNextNote pos notes = some n) : pos ≤ n.begin := by
  induction notes with
  | nil => simp [findNextNote] at h
  | cons m ms ih =>
      rw [findNextNote] at h
      by_cases hm : m.begin < pos
      · exact ih (by simpa [hm] using h)
      · rw [if_neg hm] at h
        injection h with h
        subst h
        exact le_of_not_lt hm

lemma findNextNote_eq_find (pos : ℚ) (notes : List SynthNote) :
    findNextNote pos notes = notes.find? (fun n => decide (pos ≤ n.begin)) := by
  induction notes with
  | nil => rfl
  | cons m ms ih =>
      rw [findNextNote]
      by_cases hm : m.begin < pos
      · rw [if_pos hm, ih, List.find?_cons_of_neg]
        simpa using hm
      · rw [if_neg hm, List.find?_cons_of_pos]
        simpa using not_lt.mp hm

lemma findNextNote_eq_none {pos : ℚ} {notes : List SynthNote}
    (h : ∀ n ∈ notes, n.begin < pos) : findNextNote pos notes = none := by
  induction notes with
  | nil => rfl
  | cons m ms ih =>
      rw [findNextNote, if_pos (h m (by simp))]
      exact ih fun n hn => h n (by simp [hn])

lemma findNextNote_mono {p1 p2 : ℚ} {notes : List SynthNote} {n : SynthNote}
    (h : findNextNote p1 notes = some n) (h12 : p1 ≤ p2) (h2 : p2 ≤ n.begin) :
    findNextNote p2 notes = some n := by
  induction notes with
  | nil => simp [findNextNote] at h
  | cons m ms ih =>
      rw [findNextNote] at h ⊢
      by_cases hm : m.begin < p1
      · rw [if_pos hm] at h
        rw [if_pos (lt_of_lt_of_le hm h12)]
        exact ih h
      · rw [if_neg hm] at h
        injection h with h
        subst h
        rw [if_neg (not_lt.mpr h2)]

/-! ### Basic lemmas about the schedule pass -/

lemma calcNext_pos (sb : ℤ → ℚ → ℕ → ℕ) (e : ℚ) (s : SynthState) :
    (calcNext sb e s).1.pos = s.pos := by
  cases hfn : findNextNote s.pos s.notes with
  | none => simp [calcNext, hfn]
  | some n => by_cases hb : n.begin = s.noteBegin <;> simp [calcNext, hfn, hb]

lemma calcNext_notes (sb : ℤ → ℚ → ℕ → ℕ) (e : ℚ) (s : SynthState) :
    (calcNext sb e s).1.notes = s.notes := by
  cases hfn : findNextNote s.pos s.notes with
  | none => simp [calcNext, hfn]
  | some n => by_cases hb : n.begin = s.noteBegin <;> simp [calcNext, hfn, hb]

lemma calcNext_curBuffer (sb : ℤ → ℚ → ℕ → ℕ) (e : ℚ) (s : SynthState) :
    (calcNext sb e s).1.curBuffer = s.curBuffer := by
  cases hfn : findNextNote s.pos s.notes with
  | none => simp [calcNext, hfn]
  | some n => by_cases hb : n.begin = s.noteBegin <;> simp [calcNext, hfn, hb]

lemma calcNext_quit (sb : ℤ → ℚ → ℕ → ℕ) (e : ℚ) (s : SynthState) :
    (calcNext sb e s).1.quit = s.quit := by
  cases hfn : findNextNote s.pos s.notes with
  | none => simp [calcNext, hfn]
  | some n => by_cases hb : n.begin = s.noteBegin <;> simp [calcNext, hfn, hb]

lemma calcNext_stopped (sb : ℤ → ℚ → ℕ → ℕ) (e : ℚ) (s : SynthState) :
    (calcNext sb e s).1.stopped = s.stopped := by
  cases hfn : findNextNote s.pos s.notes with
  | none => simp [calcNext, hfn]
  | some n => by_cases hb : n.begin = s.noteBegin <;> simp [calcNext, hfn, hb]

lemma calcNext_played (sb : ℤ → ℚ → ℕ → ℕ) (e : ℚ) (s : SynthState) :
    (calcNext sb e s).1.played = s.played := by
  cases hfn : findNextNote s.pos s.notes with
  | none => simp [calcNext, hfn]
  | some n => by_cases hb : n.begin = s.noteBegin <;> simp [calcNext, hfn, hb]

lemma calcNext_soundData_ne (sb : ℤ → ℚ → ℕ → ℕ) (e : ℚ) (s : SynthState)
    {j : ℕ} (hj : j ≠ s.curBuffer) :
    (calcNext sb e s).1.soundData j = s.soundData j := by
  cases hfn : findNextNote s.pos s.notes with
  | none => simp [calcNext, hfn]
  | some n => by_cases hb : n.begin = s.noteBegin <;> simp [calcNext, hfn, hb, hj]

lemma calcNext_noteBegin (sb : ℤ → ℚ → ℕ → ℕ) (e : ℚ) (s : SynthState)
    {n : SynthNote} (h : findNextNote s.pos s.notes = some n) :
    (calcNext sb e s).1.noteBegin = n.begin := by
  by_cases hb : n.begin = s.noteBegin <;> simp [calcNext, h, hb]

lemma calcNext_snd (sb : ℤ → ℚ → ℕ → ℕ) (e : ℚ) (s : SynthState)
    {n : SynthNote} (h : findNextNote s.pos s.notes = some n) :
    (calcNext sb e s).2 = decide (n.begin ≠ s.noteBegin) := by
  by_cases hb : n.begin = s.noteBegin <;> simp [calcNext, h, hb]

lemma calcNext_of_none (sb : ℤ → ℚ → ℕ → ℕ) (e : ℚ) (s : SynthState)
    (h : findNextNote s.pos s.notes = none) :
    calcNext sb e s = ({ s with delay := ulongSentinel }, false) := by
  simp [calcNext, h]

lemma calcNext_no_render (sb : ℤ → ℚ → ℕ → ℕ) (e : ℚ) (s : SynthState)
    {n : SynthNote} (h : findNextNote s.pos s.notes = some n)
    (hb : n.begin = s.noteBegin) :
    (calcNext sb e s).2 = false ∧ (calcNext sb e s).1.soundData = s.soundData := by
  constructor <;> simp [calcNext, h, hb]

/-! ### Basic lemmas about the worker step -/

lemma workerStep_tick_eq (sb : ℤ → ℚ → ℕ → ℕ) (s : SynthState) (p : ℚ)
    (ns : List SynthNote) (e : ℚ) (hst : s.stopped = false) (hq : s.quit = false) :
    workerStep sb s (.tick p ns e) = (calcNext sb e { s with pos := p, notes := ns }).1 := by
  simp [workerStep, hst, hq]

lemma workerStep_timeout_eq (sb : ℤ → ℚ → ℕ → ℕ) (s : SynthState) (e : ℚ)
    (hst : s.stopped = false) (hq : s.quit = false) :
    workerStep sb s (.timeout e) =
      { (calcNext sb e
          { s with pos := s.pos + 1 / 5,
                   played := s.played ++ [s.soundData s.curBuffer],
                   curBuffer := (s.curBuffer + 1) % 2 }).1 with
        delay := max (calcNext sb e
          { s with pos := s.pos + 1 / 5,
                   played := s.played ++ [s.soundData s.curBuffer],
                   curBuffer := (s.curBuffer + 1) % 2 }).1.delay 1 } := by
  simp [workerStep, hst, hq]

/-! ### The WAV header and the rendered buffer layout -/

lemma lt_sampleLoopCount_iff (len : ℚ) (i : ℕ) :
    i < sampleLoopCount len ↔ (i : ℚ) < len * 8000 := by
  rw [sampleLoopCount, Int.lt_toNat, Int.lt_ceil]
  push_cast
  exact Iff.rfl

lemma writeWavHeader_length (bits ch sr samples : ℕ) :
    (writeWavHeader bits ch sr samples).length = 44 := by
  simp [writeWavHeader, le2, le4]

lemma writeWavHeader_eq (samples : ℕ) (h : samples + 44 < 2 ^ 32) :
    writeWavHeader 8 1 8000 samples =
      [82, 73, 70, 70] ++ le4 (samples + 36) ++ [87, 65, 86, 69, 102, 109, 116, 32] ++
        le4 16 ++ le2 1 ++ le2 1 ++ le4 8000 ++ le4 8000 ++ le2 1 ++ le2 8 ++
        [100, 97, 116, 97] ++ le4 samples := by
  have e1 : (1 * 8 / 8 : ℕ) = 1 := rfl
  have e2 : (1 * samples : ℕ) % 2 ^ 32 = samples := by omega
  have e3 : (samples % 2 ^ 32 + 44) % 2 ^ 32 = samples + 44 := by omega
  have e4 : (samples + 44 + 2 ^ 32 - 8) % 2 ^ 32 = samples + 36 := by omega
  simp only [writeWavHeader, e1, one_mul, Nat.mod_self]
  rw [Nat.mod_eq_of_lt (show samples < 2 ^ 32 by omega)]
  rw [Nat.mod_eq_of_lt (show samples + 44 < 2 ^ 32 from h), e4]

lemma decodeLE4_le4 (n : ℕ) (h : n < 2 ^ 32) : decodeLE4 (le4 n) = n := by
  simp only [le4, decodeLE4]
  omega

lemma createBuffer_length (sb : ℤ → ℚ → ℕ → ℕ) (note : ℤ) (len : ℚ) :
    (createBuffer sb note len).length = 44 + sampleLoopCount len := by
  simp [createBuffer, writeWavHeader_length]

lemma createBuffer_take44 (sb : ℤ → ℚ → ℕ → ℕ) (note : ℤ) (len : ℚ) :
    (createBuffer sb note len).take 44 = writeWavHeader 8 1 8000 (⌊len * 8000⌋).toNat := by
  rw [createBuffer,
    show 44 = (writeWavHeader 8 1 8000 (⌊len * 8000⌋).toNat).length from
      (writeWavHeader_length _ _ _ _).symm,
    List.take_left]

lemma createBuffer_drop44 (sb : ℤ → ℚ → ℕ → ℕ) (note : ℤ) (len : ℚ) :
    (createBuffer sb note len).drop 44 = (List.range (sampleLoopCount len)).map (sb note len) := by
  rw [createBuffer,
    show 44 = (writeWavHeader 8 1 8000 (⌊len * 8000⌋).toNat).length from
      (writeWavHeader_length _ _ _ _).symm,
    List.drop_left]

lemma createBuffer_datasize_field (sb : ℤ → ℚ → ℕ → ℕ) (note : ℤ) (len : ℚ)
    (h : (⌊len * 8000⌋).toNat + 44 < 2 ^ 32) :
    decodeLE4 (((createBuffer sb note len).drop 40).take 4) = (⌊len * 8000⌋).toNat := by
  rw [createBuffer, writeWavHeader_eq _ h]
  have hdt : ∀ (m : ℕ) (rest : List ℕ),
      List.take 4 (List.drop 40 ([82, 73, 70, 70] ++ le4 (m + 36) ++
        [87, 65, 86, 69, 102, 109, 116, 32] ++ le4 16 ++ le2 1 ++ le2 1 ++ le4 8000 ++
        le4 8000 ++ le2 1 ++ le2 8 ++ [100, 97, 116, 97] ++ (le4 m ++ rest))) = le4 m :=
    fun m rest => rfl
  rw [List.append_assoc _ (le4 (⌊len * 8000⌋).toNat), hdt]
  exact decodeLE4_le4 _ (by omega)

/-! ### The synthesis loop in closed form -/

lemma synthSamples_get? (K : Type) [LinearOrderedField K] [FloorRing K]
    (sn : K → K) (d delta : K) :
    ∀ (count i : ℕ) (phase : K), i < count →
      (synthSamples K sn d delta count phase).get? i =
        some (quantize K (fvalue K sn d (phase + i * delta))) := by
  intro count
  induction count with
  | zero => exact fun i phase h => absurd h (Nat.not_lt_zero i)
  | succ k ih =>
      intro i phase h
      cases i with
      | zero => simp [synthSamples]
      | succ j =>
          rw [synthSamples, List.get?_cons_succ, ih j (phase + delta) (by omega)]
          have hph : phase + delta + (j : K) * delta = phase + ((j + 1 : ℕ) : K) * delta := by
            push_cast
            ring
          rw [hph]

/-! ### Trace invariants of the worker loop -/

lemma workerSteps_cons (sb : ℤ → ℚ → ℕ → ℕ) (ev : SynthEv) (evs : List SynthEv)
    (s : SynthState) :
    workerSteps sb (ev :: evs) s = workerSteps sb evs (workerStep sb s ev) := rfl

lemma workerStep_quit_true (sb : ℤ → ℚ → ℕ → ℕ) (s : SynthState) (ev : SynthEv)
    (hq : s.quit = true) :
    (workerStep sb s ev).quit = true ∧ (workerStep sb s ev).stopped = true ∧
    (workerStep sb s ev).played = s.played := by
  cases ev with
  | tick p ns e =>
      by_cases hst : s.stopped = true
      · simp [workerStep, hst, hq, calcNext_quit, calcNext_played]
      · simp [workerStep, hst, hq]
  | stop => simp [workerStep]
  | timeout e =>
      by_cases hst : s.stopped = true
      · simp [workerStep, hst, hq]
      · simp [workerStep, hst, hq]

lemma workerSteps_quit_true (sb : ℤ → ℚ → ℕ → ℕ) (evs : List SynthEv) :
    ∀ s : SynthState, s.quit = true → (workerSteps sb evs s).played = s.played := by
  induction evs with
  | nil => intro s _; rfl
  | cons ev evs ih =>
      intro s hq
      have h := workerStep_quit_true sb s ev hq
      rw [workerSteps_cons, ih _ h.1, h.2.2]

lemma workerSteps_ticks (sb : ℤ → ℚ → ℕ → ℕ) (evs : List SynthEv)
    (hT : ∀ ev ∈ evs, isTick ev = true) :
    ∀ s : SynthState, s.quit = false → s.stopped = false →
      (workerSteps sb evs s).curBuffer = s.curBuffer ∧
      (workerSteps sb evs s).quit = false ∧
      (workerSteps sb evs s).stopped = false ∧
      (workerSteps sb evs s).played = s.played ∧
      ∀ j, j ≠ s.curBuffer → (workerSteps sb evs s).soundData j = s.soundData j := by
  induction evs with
  | nil => intro s hq hst; exact ⟨rfl, hq, hst, rfl, fun j _ => rfl⟩
  | cons ev evs ih =>
      intro s hq hst
      obtain ⟨p, ns, e, rfl⟩ : ∃ p ns e, ev = SynthEv.tick p ns e := by
        have hm := hT ev (List.mem_cons_self ev evs)
        cases ev with
        | tick p ns e => exact ⟨p, ns, e, rfl⟩
        | stop => simp [isTick] at hm
        | timeout e => simp [isTick] at hm
      have hstep : workerStep sb s (.tick p ns e) =
          (calcNext sb e { s with pos := p, notes := ns }).1 :=
        workerStep_tick_eq sb s p ns e hst hq
      have h1cur : (workerStep sb s (.tick p ns e)).curBuffer = s.curBuffer := by
        rw [hstep, calcNext_curBuffer]
      have h1q : (workerStep sb s (.tick p ns e)).quit = false := by
        rw [hstep, calcNext_quit]; exact hq
      have h1st : (workerStep sb s (.tick p ns e)).stopped = false := by
        rw [hstep, calcNext_stopped]; exact hst
      have h1pl : (workerStep sb s (.tick p ns e)).played = s.played := by
        rw [hstep, calcNext_played]
      have ihs := ih (fun ev hev => hT ev (List.mem_cons_of_mem _ hev))
        (workerStep sb s (.tick p ns e)) h1q h1st
      rw [workerSteps_cons]
      refine ⟨?_, ihs.2.1, ihs.2.2.1, ?_, ?_⟩
      · rw [ihs.1, h1cur]
      · rw [ihs.2.2.2.1, h1pl]
      · intro j hj
        rw [ihs.2.2.2.2 j (by rw [h1cur]; exact hj), hstep]
        exact calcNext_soundData_ne sb e { s with pos := p, notes := ns } hj

lemma workerStep_tick_played (sb : ℤ → ℚ → ℕ → ℕ) (s : SynthState) (p : ℚ)
    (ns : List SynthNote) (e : ℚ) :
    (workerStep sb s (.tick p ns e)).played = s.played := by
  by_cases hst : s.stopped = true
  · simp [workerStep, hst, calcNext_played]
  · by_cases hq : s.quit = true
    · simp [workerStep, hst, hq]
    · simp [workerStep, hst, hq, calcNext_played]

/-- A concrete running worker state used to instantiate the theorems on
examples. -/
def exampleState : SynthState :=
  { pos := 0, delay := 5, noteBegin := 0, curBuffer := 0,
    soundData := fun _ => [], notes := [], quit := false,
    stopped := false, played := [] }

/-- A trivial sample-byte function used to instantiate the theorems on
examples. -/
def zeroSb : ℤ → ℚ → ℕ → ℕ := fun _ _ _ => 0

/-! ### The claims -/

/-- C1: on a note sequence sorted ascending by onset, the schedule scan
of `Synth::calcNext` never selects a note whose onset is strictly below
the position (any selected `n` has `pos ≤ n.begin`); it returns
precisely the first note in sequence order whose onset is `≥ pos`; and
a repeated pass with unchanged position and note list selects the same
note, because `calcNext` modifies neither of them (idempotent read). -/
theorem C1_schedule_scan (pos : ℚ) (notes : List SynthNote) (n : SynthNote)
    (hsorted : notes.Pairwise fun a b => a.begin ≤ b.begin)
    (hfound : findNextNote pos notes = some n)
    (sb : ℤ → ℚ → ℕ → ℕ) (e : ℚ) (s : SynthState)
    (hp : s.pos = pos) (hn : s.notes = notes) :
    pos ≤ n.begin ∧
    findNextNote pos notes = notes.find? (fun m => decide (pos ≤ m.begin)) ∧
    findNextNote (calcNext sb e s).1.pos (calcNext sb e s).1.notes =
      findNextNote pos notes := by
  refine ⟨findNextNote_le hfound, findNextNote_eq_find pos notes, ?_⟩
  rw [calcNext_pos, calcNext_notes, hp, hn]

/-- Witness for C1 at a concrete sorted note list. -/
theorem C1_schedule_scan_witness :
    (1 : ℚ) ≤ (⟨24, 2, 1⟩ : SynthNote).begin ∧
    findNextNote 1 [⟨24, 2, 1⟩] =
      List.find? (fun m => decide ((1 : ℚ) ≤ m.begin)) [⟨24, 2, 1⟩] ∧
    findNextNote (calcNext zeroSb 0 { exampleState with pos := 1, notes := [⟨24, 2, 1⟩] }).1.pos
        (calcNext zeroSb 0 { exampleState with pos := 1, notes := [⟨24, 2, 1⟩] }).1.notes =
      findNextNote 1 [⟨24, 2, 1⟩] :=
  C1_schedule_scan 1 [⟨24, 2, 1⟩] ⟨24, 2, 1⟩ (by simp)
    (by simp only [findNextNote]; norm_num) zeroSb 0
    { exampleState with pos := 1, notes := [⟨24, 2, 1⟩] } rfl rfl

/-- C2: when the worker's timed wait expires naturally (an onset), the
worker emits the active buffer, flips the active buffer index, advances
the local position by the fixed epsilon `0.2`, re-runs the schedule
pass, and forces the resulting delay up to at least `1.0` — so after an
onset fires the next scheduled delay is never below one second, even
when the true next-note delay would be smaller. -/
theorem C2_onset_emit_and_cooldown (sb : ℤ → ℚ → ℕ → ℕ) (s : SynthState) (e : ℚ)
    (hst : s.stopped = false) (hq : s.quit = false) :
    (workerStep sb s (.timeout e)).played = s.played ++ [s.soundData s.curBuffer] ∧
    (workerStep sb s (.timeout e)).curBuffer = (s.curBuffer + 1) % 2 ∧
    (workerStep sb s (.timeout e)).pos = s.pos + 1 / 5 ∧
    1 ≤ (workerStep sb s (.timeout e)).delay := by
  rw [workerStep_timeout_eq sb s e hst hq]
  exact ⟨by simp [calcNext_played], by simp [calcNext_curBuffer],
    by simp [calcNext_pos], le_max_right _ _⟩

/-- Witness for C2 at a concrete running state. -/
theorem C2_onset_emit_and_cooldown_witness :
    (workerStep zeroSb exampleState (.timeout 0)).played =
      exampleState.played ++ [exampleState.soundData exampleState.curBuffer] ∧
    (workerStep zeroSb exampleState (.timeout 0)).curBuffer =
      (exampleState.curBuffer + 1) % 2 ∧
    (workerStep zeroSb exampleState (.timeout 0)).pos = exampleState.pos + 1 / 5 ∧
    1 ≤ (workerStep zeroSb exampleState (.timeout 0)).delay :=
  C2_onset_emit_and_cooldown zeroSb exampleState 0 rfl rfl

/-- C4: a schedule pass that finds upcoming note `n` renders a new
buffer iff `n.begin` differs from the stored last-rendered onset
`noteBegin`, and stores `n.begin` as the new last-rendered onset;
consequently a second pass at any increased position `p2 ≤ n.begin`
with an unchanged note list (so the same note is still the next
upcoming one) performs no render and leaves all buffers unchanged. -/
theorem C4_render_iff_new_onset (sb : ℤ → ℚ → ℕ → ℕ) (e e2 : ℚ) (s : SynthState)
    (n : SynthNote) (p2 : ℚ)
    (hfound : findNextNote s.pos s.notes = some n)
    (h12 : s.pos ≤ p2) (h2 : p2 ≤ n.begin) :
    (calcNext sb e s).2 = decide (n.begin ≠ s.noteBegin) ∧
    (calcNext sb e s).1.noteBegin = n.begin ∧
    (calcNext sb e2 { (calcNext sb e s).1 with pos := p2 }).2 = false ∧
    (calcNext sb e2 { (calcNext sb e s).1 with pos := p2 }).1.soundData =
      (calcNext sb e s).1.soundData := by
  have hb : n.begin = ({ (calcNext sb e s).1 with pos := p2 } : SynthState).noteBegin := by
    show n.begin = (calcNext sb e s).1.noteBegin
    exact (calcNext_noteBegin sb e s hfound).symm
  have hf2 : findNextNote ({ (calcNext sb e s).1 with pos := p2 } : SynthState).pos
      ({ (calcNext sb e s).1 with pos := p2 } : SynthState).notes = some n := by
    show findNextNote p2 (calcNext sb e s).1.notes = some n
    rw [calcNext_notes]
    exact findNextNote_mono hfound h12 h2
  have hnr := calcNext_no_render sb e2 _ hf2 hb
  exact ⟨calcNext_snd sb e s hfound, calcNext_noteBegin sb e s hfound, hnr.1, hnr.2⟩

/-- Witness for C4 at a concrete state and note. -/
theorem C4_render_iff_new_onset_witness :
    (calcNext zeroSb 0 { exampleState with notes := [⟨24, 2, 1⟩] }).2 =
      decide ((⟨24, 2, 1⟩ : SynthNote).begin ≠
        ({ exampleState with notes := [⟨24, 2, 1⟩] } : SynthState).noteBegin) ∧
    (calcNext zeroSb 0 { exampleState with notes := [⟨24, 2, 1⟩] }).1.noteBegin =
      (⟨24, 2, 1⟩ : SynthNote).begin ∧
    (calcNext zeroSb 0
      { (calcNext zeroSb 0 { exampleState with notes := [⟨24, 2, 1⟩] }).1 with pos := 1 }).2 =
      false ∧
    (calcNext zeroSb 0
      { (calcNext zeroSb 0 { exampleState with notes := [⟨24, 2, 1⟩] }).1 with pos := 1 }).1.soundData =
      (calcNext zeroSb 0 { exampleState with notes := [⟨24, 2, 1⟩] }).1.soundData :=
  C4_render_iff_new_onset zeroSb 0 0 { exampleState with notes := [⟨24, 2, 1⟩] }
    ⟨24, 2, 1⟩ 1 (by norm_num [findNextNote, exampleState]) (by norm_num [exampleState])
    (by norm_num)

/-- C7: when no note has onset `≥ pos` — including the empty note list —
the schedule pass sets the delay to the huge sentinel `ULONG_MAX/1000`
(≥ 10^15 seconds: an effectively indefinite wait), renders nothing, and
leaves the last-rendered onset and both buffers unchanged; this is not
an error, and a wake (tick) step never emits a buffer, so nothing is
played until a later tick supplies an upcoming note and its delay
expires. -/
theorem C7_no_upcoming_note (sb : ℤ → ℚ → ℕ → ℕ) (e e2 p2 : ℚ)
    (ns2 : List SynthNote) (s : SynthState)
    (h : ∀ n ∈ s.notes, n.begin < s.pos) :
    (calcNext sb e s).1.delay = ulongSentinel ∧
    (calcNext sb e s).2 = false ∧
    (calcNext sb e s).1.noteBegin = s.noteBegin ∧
    (calcNext sb e s).1.soundData = s.soundData ∧
    (10 ^ 15 : ℚ) ≤ ulongSentinel ∧
    (workerStep sb s (.tick p2 ns2 e2)).played = s.played := by
  have hc := calcNext_of_none sb e s (findNextNote_eq_none h)
  exact ⟨by rw [hc], by rw [hc], by rw [hc], by rw [hc],
    by norm_num [ulongSentinel], workerStep_tick_played sb s p2 ns2 e2⟩

/-- Witness for C7 at the empty note list. -/
theorem C7_no_upcoming_note_witness :
    (calcNext zeroSb 0 exampleState).1.delay = ulongSentinel ∧
    (calcNext zeroSb 0 exampleState).2 = false ∧
    (calcNext zeroSb 0 exampleState).1.noteBegin = exampleState.noteBegin ∧
    (calcNext zeroSb 0 exampleState).1.soundData = exampleState.soundData ∧
    (10 ^ 15 : ℚ) ≤ ulongSentinel ∧
    (workerStep zeroSb exampleState (.tick 0 [] 0)).played = exampleState.played :=
  C7_no_upcoming_note zeroSb 0 0 0 [] exampleState (by simp [exampleState])

/-- C5: consecutive onset events emit from alternating buffer slots, and
the slot emitted at one onset is not rewritten — neither by the onset
step's own render pass (which writes the other slot) nor by any number
of intervening wake (tick) passes — before the next onset's handler,
whose post-flip render pass is the one preparing the buffer for the
onset after that. -/
theorem C5_buffer_rotation (sb : ℤ → ℚ → ℕ → ℕ) (s : SynthState)
    (evs : List SynthEv) (e1 e2 : ℚ)
    (hb : s.curBuffer < 2) (hq : s.quit = false) (hst : s.stopped = false)
    (hT : ∀ ev ∈ evs, isTick ev = true) :
    (workerStep sb s (.timeout e1)).played = s.played ++ [s.soundData s.curBuffer] ∧
    (workerSteps sb evs (workerStep sb s (.timeout e1))).curBuffer = (s.curBuffer + 1) % 2 ∧
    (s.curBuffer + 1) % 2 ≠ s.curBuffer ∧
    (workerStep sb (workerSteps sb evs (workerStep sb s (.timeout e1))) (.timeout e2)).played =
      (workerSteps sb evs (workerStep sb s (.timeout e1))).played ++
        [(workerSteps sb evs (workerStep sb s (.timeout e1))).soundData ((s.curBuffer + 1) % 2)] ∧
    (workerSteps sb evs (workerStep sb s (.timeout e1))).soundData s.curBuffer =
      s.soundData s.curBuffer := by
  have hflip : (s.curBuffer + 1) % 2 ≠ s.curBuffer := by omega
  have hstep := workerStep_timeout_eq sb s e1 hst hq
  -- the state written by the first onset's render pass
  have h1cur : (workerStep sb s (.timeout e1)).curBuffer = (s.curBuffer + 1) % 2 := by
    rw [hstep]; simp [calcNext_curBuffer]
  have h1q : (workerStep sb s (.timeout e1)).quit = false := by
    rw [hstep]; simp [calcNext_quit, hq]
  have h1st : (workerStep sb s (.timeout e1)).stopped = false := by
    rw [hstep]; simp [calcNext_stopped, hst]
  have h1pl : (workerStep sb s (.timeout e1)).played = s.played ++ [s.soundData s.curBuffer] := by
    rw [hstep]; simp [calcNext_played]
  have h1sd : (workerStep sb s (.timeout e1)).soundData s.curBuffer = s.soundData s.curBuffer := by
    rw [hstep]
    show (calcNext sb e1 _).1.soundData s.curBuffer = s.soundData s.curBuffer
    rw [calcNext_soundData_ne]
    exact hflip.symm
  have hseg := workerSteps_ticks sb evs hT (workerStep sb s (.timeout e1)) h1q h1st
  have h2cur : (workerSteps sb evs (workerStep sb s (.timeout e1))).curBuffer =
      (s.curBuffer + 1) % 2 := by rw [hseg.1, h1cur]
  have h2sd : (workerSteps sb evs (workerStep sb s (.timeout e1))).soundData s.curBuffer =
      s.soundData s.curBuffer := by
    rw [hseg.2.2.2.2 s.curBuffer (by rw [h1cur]; exact hflip.symm), h1sd]
  have hstep2 := workerStep_timeout_eq sb (workerSteps sb evs (workerStep sb s (.timeout e1)))
    e2 hseg.2.2.1 hseg.2.1
  refine ⟨h1pl, h2cur, hflip, ?_, h2sd⟩
  rw [hstep2]
  simp only [calcNext_played]
  rw [h2cur]

/-- Witness for C5: a single intervening tick between two onsets at a
concrete state. -/
theorem C5_buffer_rotation_witness :
    (workerStep zeroSb exampleState (.timeout 0)).played =
      exampleState.played ++ [exampleState.soundData exampleState.curBuffer] ∧
    (workerSteps zeroSb [.tick 1 [] 0] (workerStep zeroSb exampleState (.timeout 0))).curBuffer =
      (exampleState.curBuffer + 1) % 2 ∧
    (exampleState.curBuffer + 1) % 2 ≠ exampleState.curBuffer ∧
    (workerStep zeroSb
        (workerSteps zeroSb [.tick 1 [] 0] (workerStep zeroSb exampleState (.timeout 0)))
        (.timeout 0)).played =
      (workerSteps zeroSb [.tick 1 [] 0] (workerStep zeroSb exampleState (.timeout 0))).played ++
        [(workerSteps zeroSb [.tick 1 [] 0]
            (workerStep zeroSb exampleState (.timeout 0))).soundData
          ((exampleState.curBuffer + 1) % 2)] ∧
    (workerSteps zeroSb [.tick 1 [] 0]
        (workerStep zeroSb exampleState (.timeout 0))).soundData exampleState.curBuffer =
      exampleState.soundData exampleState.curBuffer :=
  C5_buffer_rotation zeroSb exampleState [.tick 1 [] 0] 0 0 (by norm_num [exampleState])
    rfl rfl (by simp [isTick])

/-- C6: `stop()` sets the shutdown flag, and the woken worker — which
checks the flag before acting, at wake granularity — exits its loop
without emitting; once the shutdown flag is set, no event of any trace
ever extends the emission log, any single event leaves the worker
stopped, and `stop()` is idempotent. -/
theorem C6_stop_shutdown (sb : ℤ → ℚ → ℕ → ℕ) (s t : SynthState)
    (evs : List SynthEv) (ev : SynthEv) (hq : t.quit = true) :
    (workerStep sb s .stop).quit = true ∧
    (workerStep sb s .stop).stopped = true ∧
    (workerStep sb s .stop).played = s.played ∧
    (workerSteps sb evs t).played = t.played ∧
    (workerStep sb t ev).stopped = true ∧
    workerStep sb (workerStep sb s .stop) .stop = workerStep sb s .stop := by
  refine ⟨rfl, rfl, rfl, workerSteps_quit_true sb evs t hq,
    (workerStep_quit_true sb t ev hq).2.1, rfl⟩

/-- Witness for C6 at a concrete stopped-flag state and trace. -/
theorem C6_stop_shutdown_witness :
    (workerStep zeroSb exampleState .stop).quit = true ∧
    (workerStep zeroSb exampleState .stop).stopped = true ∧
    (workerStep zeroSb exampleState .stop).played = exampleState.played ∧
    (workerSteps zeroSb [.timeout 0, .tick 1 [] 0]
        { exampleState with quit := true }).played =
      ({ exampleState with quit := true } : SynthState).played ∧
    (workerStep zeroSb { exampleState with quit := true } (.timeout 0)).stopped = true ∧
    workerStep zeroSb (workerStep zeroSb exampleState .stop) .stop =
      workerStep zeroSb exampleState .stop :=
  C6_stop_shutdown zeroSb exampleState { exampleState with quit := true }
    [.timeout 0, .tick 1 [] 0] (.timeout 0) rfl

/-- C10: the last-rendered-onset field is value-initialised to `0.0`,
the same value as a legitimate onset of `0.0`; so when the first
upcoming note of the first tick has onset exactly `0`, the initial
schedule pass skips rendering (the onset collides with the sentinel),
both buffers stay empty, and the buffer emitted at that onset is the
initial empty byte array rather than a tone for the note. -/
theorem C10_initial_onset_collision (sb : ℤ → ℚ → ℕ → ℕ)
    (ns : List SynthNote) (n : SynthNote) (e e2 : ℚ) (j : ℕ)
    (h0 : findNextNote 0 ns = some n) (hb : n.begin = 0) :
    (calcNext sb e { initState with pos := 0, notes := ns }).2 = false ∧
    (workerStep sb initState (.tick 0 ns e)).soundData j = [] ∧
    (workerStep sb initState (.tick 0 ns e)).noteBegin = 0 ∧
    (workerStep sb (workerStep sb initState (.tick 0 ns e)) (.timeout e2)).played = [[]] := by
  have hf : findNextNote ({ initState with pos := 0, notes := ns } : SynthState).pos
      ({ initState with pos := 0, notes := ns } : SynthState).notes = some n := h0
  have hbb : n.begin = ({ initState with pos := 0, notes := ns } : SynthState).noteBegin := hb
  have hnr := calcNext_no_render sb e _ hf hbb
  have hstart : workerStep sb initState (.tick 0 ns e) =
      { (calcNext sb e { initState with pos := 0, notes := ns }).1 with stopped := false } := by
    simp [workerStep, initState]
  have hsd : ∀ j : ℕ, (workerStep sb initState (.tick 0 ns e)).soundData j = [] := by
    intro j
    rw [hstart]
    show (calcNext sb e { initState with pos := 0, notes := ns }).1.soundData j = []
    rw [hnr.2]
    rfl
  have hnb : (workerStep sb initState (.tick 0 ns e)).noteBegin = 0 := by
    rw [hstart]
    show (calcNext sb e { initState with pos := 0, notes := ns }).1.noteBegin = 0
    rw [calcNext_noteBegin sb e _ hf, hb]
  refine ⟨hnr.1, hsd j, hnb, ?_⟩
  have h1st : (workerStep sb initState (.tick 0 ns e)).stopped = false := by
    rw [hstart]
  have h1q : (workerStep sb initState (.tick 0 ns e)).quit = false := by
    rw [hstart]
    show (calcNext sb e { initState with pos := 0, notes := ns }).1.quit = false
    rw [calcNext_quit]
    rfl
  have h1pl : (workerStep sb initState (.tick 0 ns e)).played = [] := by
    rw [hstart]
    show (calcNext sb e { initState with pos := 0, notes := ns }).1.played = []
    rw [calcNext_played]
    rfl
  rw [workerStep_timeout_eq sb _ e2 h1st h1q]
  simp only [calcNext_played]
  rw [h1pl, hsd]
  rfl

/-- Witness for C10 with a single note at onset `0`. -/
theorem C10_initial_onset_collision_witness :
    (calcNext zeroSb 0 { initState with pos := 0, notes := [⟨24, 0, 1⟩] }).2 = false ∧
    (workerStep zeroSb initState (.tick 0 [⟨24, 0, 1⟩] 0)).soundData 0 = [] ∧
    (workerStep zeroSb initState (.tick 0 [⟨24, 0, 1⟩] 0)).noteBegin = 0 ∧
    (workerStep zeroSb (workerStep zeroSb initState (.tick 0 [⟨24, 0, 1⟩] 0))
        (.timeout 0)).played = [[]] :=
  C10_initial_onset_collision zeroSb [⟨24, 0, 1⟩] ⟨24, 0, 1⟩ 0 0 0
    (by norm_num [findNextNote]) rfl

/-- C9: every rendered output begins with the 44-byte little-endian
container header whose fields are exactly: "RIFF" at offset 0, the
total size minus 8 (`samples + 44 - 8 = samples + 36`) at offset 4,
"WAVEfmt " at offset 8, `16` at offset 16, format tag `1` at offset 20,
channel count `1` at offset 22, sample rate `8000` at offset 24, byte
rate `8000` at offset 28, block align `1` at offset 32, bits per sample
`8` at offset 34, "data" at offset 36 and the data size at offset 40. -/
theorem C9_wav_header_fields (samples : ℕ) (sb : ℤ → ℚ → ℕ → ℕ) (note : ℤ) (len : ℚ)
    (h : samples + 44 < 2 ^ 32) :
    writeWavHeader 8 1 8000 samples =
      [82, 73, 70, 70] ++ le4 (samples + 36) ++ [87, 65, 86, 69, 102, 109, 116, 32] ++
        le4 16 ++ le2 1 ++ le2 1 ++ le4 8000 ++ le4 8000 ++ le2 1 ++ le2 8 ++
        [100, 97, 116, 97] ++ le4 samples ∧
    (writeWavHeader 8 1 8000 samples).length = 44 ∧
    (createBuffer sb note len).take 44 = writeWavHeader 8 1 8000 (⌊len * 8000⌋).toNat :=
  ⟨writeWavHeader_eq samples h, writeWavHeader_length 8 1 8000 samples,
    createBuffer_take44 sb note len⟩

/-- Witness for C9 at a concrete sample count. -/
theorem C9_wav_header_fields_witness :
    writeWavHeader 8 1 8000 4000 =
      [82, 73, 70, 70] ++ le4 (4000 + 36) ++ [87, 65, 86, 69, 102, 109, 116, 32] ++
        le4 16 ++ le2 1 ++ le2 1 ++ le4 8000 ++ le4 8000 ++ le2 1 ++ le2 8 ++
        [100, 97, 116, 97] ++ le4 4000 ∧
    (writeWavHeader 8 1 8000 4000).length = 44 ∧
    (createBuffer zeroSb 0 (1 / 2)).take 44 =
      writeWavHeader 8 1 8000 (⌊(1 / 2 : ℚ) * 8000⌋).toNat :=
  C9_wav_header_fields 4000 zeroSb 0 (1 / 2) (by norm_num)

/-- C3 (amended): for every pitch and duration `d > 0` (bounded so that
the 32-bit header field cannot wrap), one render pass produces exactly
`44 + ⌈d·8000⌉` bytes — the 44-byte header followed by `⌈d·8000⌉`
sample bytes, the iteration count of `i < d·8000` — while the header's
data-size field holds the truncated count `⌊d·8000⌋`; the two (and the
claim's `round(d·8000)`) all coincide exactly when `d·8000` is an
integer. -/
theorem C3_render_pass_length (sb : ℤ → ℚ → ℕ → ℕ) (note : ℤ) (len : ℚ)
    (h0 : 0 < len) (hbound : len < 500000) :
    (createBuffer sb note len).length = 44 + (⌈len * 8000⌉).toNat ∧
    decodeLE4 (((createBuffer sb note len).drop 40).take 4) = (⌊len * 8000⌋).toNat ∧
    ((createBuffer sb note len).drop 44).length = (⌈len * 8000⌉).toNat ∧
    (len * 8000 = ((⌊len * 8000⌋ : ℤ) : ℚ) → ⌈len * 8000⌉ = ⌊len * 8000⌋) := by
  have hz : ⌊len * 8000⌋ < (4000000000 : ℤ) := by
    rw [Int.floor_lt]
    push_cast
    nlinarith
  refine ⟨createBuffer_length sb note len, ?_, ?_, ?_⟩
  · exact createBuffer_datasize_field sb note len (by omega)
  · rw [createBuffer_drop44]
    simp [sampleLoopCount]
  · intro hint
    rw [hint, Int.ceil_intCast, Int.floor_intCast]

/-- Witness for C3 (amended) at a half-second duration. -/
theorem C3_render_pass_length_witness :
    (createBuffer zeroSb 0 (1 / 2)).length = 44 + (⌈(1 / 2 : ℚ) * 8000⌉).toNat ∧
    decodeLE4 (((createBuffer zeroSb 0 (1 / 2)).drop 40).take 4) =
      (⌊(1 / 2 : ℚ) * 8000⌋).toNat ∧
    ((createBuffer zeroSb 0 (1 / 2)).drop 44).length = (⌈(1 / 2 : ℚ) * 8000⌉).toNat ∧
    ((1 / 2 : ℚ) * 8000 = ((⌊(1 / 2 : ℚ) * 8000⌋ : ℤ) : ℚ) →
      ⌈(1 / 2 : ℚ) * 8000⌉ = ⌊(1 / 2 : ℚ) * 8000⌋) :=
  C3_render_pass_length zeroSb 0 (1 / 2) (by norm_num) (by norm_num)

/-- C3 counterexample: at duration `11/4096` s (so `d·8000 = 21.484375`)
the render pass appends `22` sample bytes and the output holds
`44 + 22 = 66` bytes — not `44 + round(d·8000) = 65` as claimed — and
the header's data-size field reads `21` even though `22` sample bytes
actually follow it. -/
theorem C3_counterexample :
    (createBuffer zeroSb 0 (11 / 4096)).length = 66 ∧
    44 + (round ((11 / 4096 : ℚ) * 8000)).toNat = 65 ∧
    decodeLE4 (((createBuffer zeroSb 0 (11 / 4096)).drop 40).take 4) = 21 ∧
    ((createBuffer zeroSb 0 (11 / 4096)).drop 44).length = 22 := by
  have hceil : ⌈(11 / 4096 : ℚ) * 8000⌉ = 22 := by
    rw [Int.ceil_eq_iff]
    constructor <;> norm_num
  have hfloor : ⌊(11 / 4096 : ℚ) * 8000⌋ = 21 := by
    rw [Int.floor_eq_iff]
    constructor <;> norm_num
  have hround : round ((11 / 4096 : ℚ) * 8000) = 21 := by
    rw [round_eq, Int.floor_eq_iff]
    constructor <;> norm_num
  refine ⟨?_, ?_, ?_, ?_⟩
  · rw [createBuffer_length, sampleLoopCount, hceil]
    rfl
  · rw [hround]
    rfl
  · rw [createBuffer_datasize_field zeroSb 0 (11 / 4096) (by rw [hfloor]; decide), hfloor]
    rfl
  · rw [createBuffer_drop44]
    simp [sampleLoopCount, hceil]

/-- C8 (amended): in the exact-arithmetic model of the synthesis loop of
`createBuffer`, the `i`-th sample byte value equals the truncation
`⌊(s + 1) · 0.5 · 255⌋` — the C++ float→uint8 conversion truncates
toward zero rather than rounds, and no clamping is performed (the
produced values always lie inside `[0, 256)`) — where `s` is the
three-harmonic amplitude `fvalue` at phase `i · delta`, the phase
accumulating by `delta = 2π·freq/8000` per sample from `0`. -/
theorem C8_sample_byte_truncation (K : Type) [LinearOrderedField K] [FloorRing K]
    (sn : K → K) (d delta : K) (count i : ℕ) (h : i < count) :
    (synthSamples K sn d delta count 0).get? i =
      some (quantize K (fvalue K sn d (i * delta))) := by
  have hs := synthSamples_get? K sn d delta count i 0 h
  rwa [zero_add] at hs

/-- Witness for C8 (amended) at a concrete field, duration and sine
stub. -/
theorem C8_sample_byte_truncation_witness :
    (synthSamples ℚ id (1 / 13) 1 2 0).get? 1 =
      some (quantize ℚ (fvalue ℚ id (1 / 13) (((1 : ℕ) : ℚ) * 1))) :=
  C8_sample_byte_truncation ℚ id (1 / 13) 1 2 1 (by norm_num)

/-- C8 counterexample: at the very first sample (phase `0`, where
`Real.sin 0 = 0`, so the three-harmonic amplitude is exactly `0`) the
code's byte value is the truncation `⌊(0 + 1) · 0.5 · 255⌋ = 127`,
whereas the claimed rounding gives `round((0 + 1) · 0.5 · 255) = 128`. -/
theorem C8_counterexample :
    (synthSamples ℝ Real.sin (1 / 13) (2 * Real.pi * 440 / 8000) 1 0).get? 0 =
      some 127 ∧
    round ((fvalue ℝ Real.sin (1 / 13)
        (((0 : ℕ) : ℝ) * (2 * Real.pi * 440 / 8000)) + 1) * (1 / 2) * 255) = 128 ∧
    (127 : ℤ) ≠ 128 := by
  have hf0 : fvalue ℝ Real.sin (1 / 13) 0 = 0 := by
    simp [fvalue]
  refine ⟨?_, ?_, by decide⟩
  · have h1 : (synthSamples ℝ Real.sin (1 / 13) (2 * Real.pi * 440 / 8000) 1 0).get? 0 =
        some (quantize ℝ (fvalue ℝ Real.sin (1 / 13) 0)) := rfl
    rw [h1, hf0]
    have h2 : quantize ℝ (0 : ℝ) = 127 := by
      show ⌊((0 : ℝ) + 1) * (1 / 2) * 255⌋ = 127
      rw [show ((0 : ℝ) + 1) * (1 / 2) * 255 = 255 / 2 from by norm_num,
        Int.floor_eq_iff]
      constructor <;> norm_num
    rw [h2]
  · rw [show (((0 : ℕ) : ℝ) * (2 * Real.pi * 440 / 8000)) = 0 from by norm_num, hf0]
    rw [show ((0 : ℝ) + 1) * (1 / 2) * 255 = 255 / 2 from by norm_num, round_eq]
    rw [show (255 / 2 + 1 / 2 : ℝ) = ((128 : ℤ) : ℝ) from by norm_num]
    exact Int.floor_intCast 128

end Composer
